import Mathlib

/-!
Verification development for the 10xCards flashcard application.

The definitions below are a shallow embedding of the repository's core
logic:

* the client-side study-session state machine (`useStudySession` in
  `src/components/hooks/useStudySession.ts`): shuffle, navigate, flip,
  complete, restart;
* the server-side bulk-commit operation
  (`FlashcardService.bulkCreateFlashcards` in `src/lib/flashcardService.ts`);
* the AI suggestion pipeline (`generateFlashcards` in
  `src/lib/generationService.ts` together with the error taxonomy of
  `src/lib/openrouterService.ts`);
* the request validation of the bulk endpoint
  (`POST /api/decks/[deckId]/flashcards/bulk` with
  `bulkCreateFlashcardsSchema` from `src/lib/schemas.ts`).

Database reads/writes are modelled as explicit state passing over a `Db`
record; row-level security is modelled as owner-scoped visibility of rows.
JavaScript numbers are modelled as `Int` where subtraction may go negative
and as `Nat` elsewhere; string lengths use Lean's codepoint length (the
claims never involve astral characters, where JS UTF-16 lengths would
differ).  Randomness (`Math.random()`) is modelled by an explicit draw
function `rand : Nat → Nat`; `Math.floor(Math.random() * (i + 1))` always
lies in `[0, i]`, which we model as `rand i % (i + 1)` (the modulus is the
identity on every realizable draw).
-/

/-! ## Study-session engine (`useStudySession.ts`) -/

/-- The `StudySessionViewModel` state of the `useStudySession` hook,
polymorphic in the card type (the hook stores `FlashcardDto` values but
never inspects them). -/
structure StudySessionState (α : Type) where
  shuffledFlashcards : List α
  currentIndex : Nat
  isFlipped : Bool
  isComplete : Bool
  totalCards : Nat
  deriving Repr, DecidableEq

/-- One swap `[a[i], a[j]] = [a[j], a[i]]` on a list; out-of-range indices
leave the list unchanged (they never occur in the shuffle loop). -/
def listSwap {α : Type} (l : List α) (i j : Nat) : List α :=
  match l[i]?, l[j]? with
  | some a, some b => (l.set i b).set j a
  | _, _ => l

/-- The loop of `shuffleArray`: iterates `i` from the given start down to 1,
swapping position `i` with position `rand i % (i + 1)` (the model of
`Math.floor(Math.random() * (i + 1))`). -/
def fisherYatesLoop {α : Type} (rand : Nat → Nat) : List α → Nat → List α
  | l, 0 => l
  | l, i + 1 => fisherYatesLoop rand (listSwap l (i + 1) (rand (i + 1) % (i + 2))) i

/-- Model of `shuffleArray` from `useStudySession.ts`: a Fisher-Yates shuffle over a
copy of the input, driven by the draw function `rand`. -/
def shuffleArray {α : Type} (rand : Nat → Nat) (array : List α) : List α :=
  fisherYatesLoop rand array (array.length - 1)

/-- The initial state built by `useStudySession`'s `useState` initializer
(also the state installed when the input card list changes identity). -/
def initSession {α : Type} (rand : Nat → Nat) (initialFlashcards : List α) :
    StudySessionState α :=
  { shuffledFlashcards := shuffleArray rand initialFlashcards
    currentIndex := 0
    isFlipped := false
    isComplete := false
    totalCards := initialFlashcards.length }

/-- Model of `goToNext` from `useStudySession.ts`. -/
def goToNext {α : Type} (prev : StudySessionState α) : StudySessionState α :=
  let nextIndex := prev.currentIndex + 1
  if nextIndex ≥ prev.totalCards then
    { prev with isComplete := true, isFlipped := false }
  else
    { prev with currentIndex := nextIndex, isFlipped := false }

/-- Model of `goToPrevious` from `useStudySession.ts`. -/
def goToPrevious {α : Type} (prev : StudySessionState α) : StudySessionState α :=
  if prev.currentIndex = 0 then prev
  else { prev with currentIndex := prev.currentIndex - 1, isFlipped := false }

/-- Model of `flipCard` from `useStudySession.ts`. -/
def flipCard {α : Type} (prev : StudySessionState α) : StudySessionState α :=
  { prev with isFlipped := !prev.isFlipped }

/-- Model of `restartSession` from `useStudySession.ts`: re-shuffles the current
working set and resets cursor, flip and completion. -/
def restartSession {α : Type} (rand : Nat → Nat) (prev : StudySessionState α) :
    StudySessionState α :=
  { prev with
    shuffledFlashcards := shuffleArray rand prev.shuffledFlashcards
    currentIndex := 0
    isFlipped := false
    isComplete := false }

/-- One user interaction on the session state. -/
inductive SessionStep {α : Type} : StudySessionState α → StudySessionState α → Prop
  | next (s : StudySessionState α) : SessionStep s (goToNext s)
  | prev (s : StudySessionState α) : SessionStep s (goToPrevious s)
  | flip (s : StudySessionState α) : SessionStep s (flipCard s)
  | restart (rand : Nat → Nat) (s : StudySessionState α) :
      SessionStep s (restartSession rand s)

/-- The states reachable from `initSession cards` by any sequence of
`flip` / `next` / `previous` / `restart` interactions. -/
inductive SessionReachable {α : Type} (cards : List α) : StudySessionState α → Prop
  | init (rand : Nat → Nat) : SessionReachable cards (initSession rand cards)
  | step {s t : StudySessionState α} :
      SessionReachable cards s → SessionStep s t → SessionReachable cards t

/-! ## Persistence model

The Supabase store is modelled as an explicit record of rows.  A `.single()`
query that finds no row is the `PGRST116` branch of the source; transport
failures of the two *write* statements of the commit operation are modelled
by explicit Booleans (`insertFails`, `updateFails`), because claim C3 is
about exactly those failures. -/

/-- A transient `{front, back}` candidate (type `SuggestedFlashcard` in
`src/types.ts`). -/
structure SuggestedFlashcard where
  front : String
  back : String
  deriving Repr, DecidableEq

/-- A row of the `decks` table (the fields the verified operations read). -/
structure DeckRow where
  id : String
  userId : String
  deriving Repr, DecidableEq

/-- A row of the `flashcards` table (the fields the verified operations
write). -/
structure FlashcardRow where
  deckId : String
  front : String
  back : String
  creationType : String
  generationId : Option String
  deriving Repr, DecidableEq

/-- A row of the `generations` table. -/
structure GenerationRow where
  id : String
  deckId : String
  userId : String
  durationMs : Int
  generatedCardsCount : Nat
  acceptedCardsCount : Option Int
  deriving Repr, DecidableEq

/-- A row of the append-only `generation_errors` table. -/
structure GenerationErrorRow where
  deckId : String
  userId : String
  errorMessage : String
  deriving Repr, DecidableEq

/-- The visible database state. -/
structure Db where
  decks : List DeckRow
  flashcards : List FlashcardRow
  generations : List GenerationRow
  generationErrors : List GenerationErrorRow
  deriving Repr, DecidableEq

/-- Model of the deck lookup `.select(..).eq("id", deckId).single()` as issued
by `FlashcardService`: row-level security restricts visibility to the
authenticated owner, so the lookup is owner-scoped. -/
def findDeck (db : Db) (userId deckId : String) : Option DeckRow :=
  db.decks.find? (fun d => d.id = deckId && d.userId = userId)

/-- The `count: "exact"` query over `flashcards` filtered by `deck_id`. -/
def countFlashcards (db : Db) (deckId : String) : Nat :=
  (db.flashcards.filter (fun f => f.deckId = deckId)).length

/-- The generation lookup of `bulkCreateFlashcards` (step 2):
`.eq("id", generationId).eq("user_id", userId).eq("deck_id", deckId).single()`. -/
def findGeneration (db : Db) (userId deckId generationId : String) :
    Option GenerationRow :=
  db.generations.find?
    (fun g => g.id = generationId && g.userId = userId && g.deckId = deckId)

/-- JavaScript `array.slice(0, e)` for an integer `e` (a negative `e` counts
from the end of the array, `max(len + e, 0)`). -/
def jsSliceTo {α : Type} (l : List α) (e : Int) : List α :=
  if e < 0 then l.take (max ((l.length : Int) + e) 0).toNat
  else l.take e.toNat

/-- The `BulkCreateFlashcardsCommand` of `src/types.ts`. -/
structure BulkCreateFlashcardsCommand where
  generationId : String
  flashcards : List SuggestedFlashcard
  deriving Repr, DecidableEq

/-- The `BulkCreateFlashcardsResponseDto` of `src/types.ts`.  The counts are
`Int` because the source computes them with JavaScript number arithmetic. -/
structure BulkCreateFlashcardsResponseDto where
  cardsAdded : Int
  cardsSkipped : Int
  deckTotalFlashcards : Int
  deriving Repr, DecidableEq

/-- The errors `bulkCreateFlashcards` can throw.  `deckNotFound` is the
`DeckNotFoundError` class, `generationAlreadyProcessed` is the
`GenerationAlreadyProcessedError` class; the remaining constructors are the
plain `Error` throws at the corresponding sites. -/
inductive CommitError where
  | deckNotFound
  | generationNotFound
  | generationAlreadyProcessed
  | insertFailed
  | updateFailed
  deriving Repr, DecidableEq

/-- The row inserted for one curated card in step 4 of
`bulkCreateFlashcards`. -/
def mkGeneratedRow (deckId generationId : String) (fc : SuggestedFlashcard) :
    FlashcardRow :=
  { deckId := deckId
    front := fc.front
    back := fc.back
    creationType := "generated"
    generationId := some generationId }

/-- Model of `FlashcardService.bulkCreateFlashcards` from `src/lib/flashcardService.ts`,
step for step.  The result pairs the database state after the call with the
outcome; a thrown error leaves whatever state the completed statements
produced. -/
def bulkCreateFlashcards (db : Db) (userId deckId : String)
    (command : BulkCreateFlashcardsCommand) (insertFails updateFails : Bool) :
    Db × Except CommitError BulkCreateFlashcardsResponseDto :=
  -- Step 1: verify deck ownership
  match findDeck db userId deckId with
  | none => (db, .error .deckNotFound)
  | some _ =>
    -- Step 1b: current flashcard count for this deck
    let flashcardCount : Int := countFlashcards db deckId
    -- Step 2: check the generation exists and belongs to this deck and user
    match findGeneration db userId deckId command.generationId with
    | none => (db, .error .generationNotFound)
    | some generation =>
      match generation.acceptedCardsCount with
      | some _ => (db, .error .generationAlreadyProcessed)
      | none =>
        -- Step 3: how many cards can be added
        let availableSlots : Int := 100 - flashcardCount
        let cardsToAdd : Int := min (command.flashcards.length : Int) availableSlots
        let cardsSkipped : Int := (command.flashcards.length : Int) - cardsToAdd
        -- Step 4: rows to insert
        let flashcardsToInsert : List FlashcardRow :=
          (jsSliceTo command.flashcards cardsToAdd).map
            (mkGeneratedRow deckId command.generationId)
        -- Step 5: insert flashcards (if any)
        let afterInsert : Except CommitError Db :=
          if flashcardsToInsert.length > 0 then
            if insertFails then .error .insertFailed
            else .ok { db with flashcards := db.flashcards ++ flashcardsToInsert }
          else .ok db
        match afterInsert with
        | .error e => (db, .error e)
        | .ok db1 =>
          -- Step 6: mark the generation as processed
          if updateFails then (db1, .error .updateFailed)
          else
            let db2 : Db :=
              { db1 with
                generations := db1.generations.map (fun g =>
                  if g.id = command.generationId then
                    { g with acceptedCardsCount := some cardsToAdd }
                  else g) }
            -- Step 7: totals
            (db2, .ok
              { cardsAdded := cardsToAdd
                cardsSkipped := cardsSkipped
                deckTotalFlashcards := flashcardCount + cardsToAdd })

/-! ## Suggestion pipeline (`generationService.ts` / `openrouterService.ts`) -/

/-- The closed taxonomy of `OpenRouterService` error classes. -/
inductive OpenRouterFailure where
  | configuration
  | authentication
  | rateLimit
  | badRequest
  | validation
  | network
  | api
  deriving Repr, DecidableEq

/-- The `flashcardsResponseSchema` array bound of `generationService.ts`:
`z.array(flashcardSchema).min(1).max(20)` (the `describe` text announces
3-10 suggestions, but the enforced bound is 1-20; the member strings carry
no constraint). -/
def flashcardsResponseCheck (flashcards : List SuggestedFlashcard) : Bool :=
  1 ≤ flashcards.length && flashcards.length ≤ 20

/-- Model of `OpenRouterService.parseResponse` with `flashcardsResponseSchema`
supplied: a parsed payload that fails the schema raises `ValidationError`. -/
def parseWithSchema (payload : List SuggestedFlashcard) :
    Except OpenRouterFailure (List SuggestedFlashcard) :=
  if flashcardsResponseCheck payload then .ok payload
  else .error .validation

/-- The cause classes a surfaced `GenerationError` can wrap; each
constructor corresponds to one `catch` branch (one distinct user-facing
message) of `generateFlashcards`. -/
inductive GenerationFailureKind where
  | configuration
  | authentication
  | rateLimit
  | network
  | validation
  | apiOrBadRequest
  | emptyResult
  | loggingFailed
  deriving Repr, DecidableEq

/-- The `instanceof` chain of `generateFlashcards`'s catch block, mapping
each `OpenRouterService` failure class to the `GenerationError` it
surfaces. -/
def classifyOpenRouterFailure : OpenRouterFailure → GenerationFailureKind
  | .configuration => .configuration
  | .authentication => .authentication
  | .rateLimit => .rateLimit
  | .network => .network
  | .validation => .validation
  | .badRequest => .apiOrBadRequest
  | .api => .apiOrBadRequest

/-- The errors `generateFlashcards` can throw: `DeckNotFoundError` or a
`GenerationError` wrapping one cause class. -/
inductive SuggestError where
  | deckNotFound
  | generation (kind : GenerationFailureKind)
  deriving Repr, DecidableEq

/-- The `SuggestedFlashcardsDto` of `src/types.ts`. -/
structure SuggestedFlashcardsDto where
  generationId : String
  suggestedFlashcards : List SuggestedFlashcard
  deriving Repr, DecidableEq

/-- Model of `generateFlashcards` from `src/lib/generationService.ts`.

The external completion call is modelled by `aiResult`: either a failure
class raised by `OpenRouterService` (configuration error from the
constructor, HTTP-mapped error, or transport `NetworkError`), or the parsed
JSON payload, which still passes through the schema validation of
`parseResponse`.  `durationMs` stands for the measured elapsed time and
`newGenId` for the row id the store assigns; `insertFails` says whether the
`generations` insert errors. -/
def generateFlashcards (db : Db) (deckId : String) (_text : String)
    (userId : String)
    (aiResult : Except OpenRouterFailure (List SuggestedFlashcard))
    (durationMs : Int) (newGenId : String) (insertFails : Bool) :
    Db × Except SuggestError SuggestedFlashcardsDto :=
  -- Step 1: verify deck ownership: `.select("id, user_id").eq("id", deckId)`
  -- followed by an explicit user check (information hiding: a foreign deck
  -- is indistinguishable from a missing one).
  match db.decks.find? (fun d => d.id = deckId) with
  | none => (db, .error .deckNotFound)
  | some deck =>
    if deck.userId ≠ userId then (db, .error .deckNotFound)
    else
      -- Step 2: AI call and schema validation inside the try block.
      match aiResult.bind parseWithSchema with
      | .error e => (db, .error (.generation (classifyOpenRouterFailure e)))
      | .ok suggestedFlashcards =>
        if suggestedFlashcards.length = 0 then
          (db, .error (.generation .emptyResult))
        else if insertFails then
          -- Step 3 failure path: best-effort `generation_errors` log, then
          -- `GenerationError("Failed to log generation event")`.
          ({ db with
              generationErrors := db.generationErrors ++
                [{ deckId := deckId, userId := userId,
                   errorMessage := "Failed to insert generation record" }] },
            .error (.generation .loggingFailed))
        else
          -- Step 3/4: insert the Generation row with a null accepted count
          -- and return the dto.
          ({ db with
              generations := db.generations ++
                [{ id := newGenId, deckId := deckId, userId := userId,
                   durationMs := durationMs,
                   generatedCardsCount := suggestedFlashcards.length,
                   acceptedCardsCount := none }] },
            .ok { generationId := newGenId,
                  suggestedFlashcards := suggestedFlashcards })

/-! ## Bulk endpoint validation (`schemas.ts` and `bulk.ts`) -/

/-- A hexadecimal digit, either case. -/
def isHexDigit (c : Char) : Bool :=
  c.isDigit || (c ≥ 'a' && c ≤ 'f') || (c ≥ 'A' && c ≤ 'F')

/-- Splits a character list at every hyphen (the grouping performed by the
UUID regular expression). -/
def splitOnHyphen : List Char → List (List Char)
  | [] => [[]]
  | c :: cs =>
    if c = '-' then [] :: splitOnHyphen cs
    else
      match splitOnHyphen cs with
      | [] => [[c]]
      | g :: gs => (c :: g) :: gs

/-- The `z.string().uuid()` format check (`uuidSchema`): five
hyphen-separated groups of 8-4-4-4-12 hexadecimal digits. -/
def isUuid (s : String) : Bool :=
  match splitOnHyphen s.toList with
  | [a, b, c, d, e] =>
    a.length = 8 && b.length = 4 && c.length = 4 && d.length = 4 &&
    e.length = 12 &&
    (a ++ b ++ c ++ d ++ e).all isHexDigit
  | _ => false

/-- One entry of `bulkCreateFlashcardsSchema.flashcards`:
`z.string().trim().min(1).max(200)` on the front and
`z.string().trim().min(1).max(500)` on the back — zod trims first and
bounds the trimmed length. -/
def validBulkEntry (fc : SuggestedFlashcard) : Bool :=
  1 ≤ fc.front.trim.length && fc.front.trim.length ≤ 200 &&
  1 ≤ fc.back.trim.length && fc.back.trim.length ≤ 500

/-- The predicate enforced by `bulkCreateFlashcardsSchema`: a UUID
`generationId` and 1-100 flashcards, each passing `validBulkEntry`. -/
def bulkBodyCheck (body : BulkCreateFlashcardsCommand) : Bool :=
  isUuid body.generationId &&
  1 ≤ body.flashcards.length && body.flashcards.length ≤ 100 &&
  body.flashcards.all validBulkEntry

/-- Model of `bulkCreateFlashcardsSchema.safeParse`: on success zod returns the
parsed data with the trim transforms applied. -/
def parseBulkBody (body : BulkCreateFlashcardsCommand) :
    Option BulkCreateFlashcardsCommand :=
  if bulkBodyCheck body then
    some { generationId := body.generationId
           flashcards := body.flashcards.map (fun fc =>
             { front := fc.front.trim, back := fc.back.trim }) }
  else none

/-- The responses of the bulk endpoint, by status code. -/
inductive BulkHttpResponse where
  | created (dto : BulkCreateFlashcardsResponseDto) -- 201
  | badRequest                                      -- 400
  | unauthorized                                    -- 401
  | notFound                                        -- 404
  | conflict                                        -- 409
  | serverError                                     -- 500
  deriving Repr, DecidableEq

/-- The `POST /api/decks/[deckId]/flashcards/bulk` handler from
`src/pages/api/decks/[deckId]/flashcards/bulk.ts`.  `userId?` is
`locals.user?.id`; `body?` is `none` when `request.json()` rejects. -/
def postBulk (db : Db) (userIdOpt : Option String) (deckIdParam : String)
    (bodyOpt : Option BulkCreateFlashcardsCommand)
    (insertFails updateFails : Bool) : Db × BulkHttpResponse :=
  -- Step 1: authentication check
  match userIdOpt with
  | none => (db, .unauthorized)
  | some userId =>
    -- Step 2: validate the deckId path parameter
    if !isUuid deckIdParam then (db, .badRequest)
    else
      -- Step 3: parse and validate the request body
      match bodyOpt with
      | none => (db, .badRequest)
      | some body =>
        match parseBulkBody body with
        | none => (db, .badRequest)
        | some command =>
          -- Step 4: call the flashcard service
          match bulkCreateFlashcards db userId deckIdParam command
              insertFails updateFails with
          | (db1, .ok result) => (db1, .created result)
          | (db1, .error .deckNotFound) => (db1, .notFound)
          | (db1, .error .generationAlreadyProcessed) => (db1, .conflict)
          | (db1, .error _) => (db1, .serverError)

/-! ## Helper lemmas: study-session engine -/

/-- Exact shape of the session state after `k < totalCards` calls of
`goToNext` from a fresh session. -/
lemma iterate_goToNext_eq {α : Type} (rand : Nat → Nat) (cards : List α) :
    ∀ k, k < cards.length →
      goToNext^[k] (initSession rand cards) =
        { shuffledFlashcards := shuffleArray rand cards
          currentIndex := k
          isFlipped := false
          isComplete := false
          totalCards := cards.length } := by
  intro k
  induction k with
  | zero =>
    intro _
    rfl
  | succ k ih =>
    intro hk
    rw [Function.iterate_succ_apply', ih (Nat.lt_of_succ_lt hk)]
    simp only [goToNext]
    rw [if_neg (by omega)]

/-- None of the four operations changes `totalCards`; reachable states keep
the length of the input list. -/
lemma reachable_totalCards {α : Type} {cards : List α} {s : StudySessionState α}
    (h : SessionReachable cards s) : s.totalCards = cards.length := by
  induction h with
  | init rand => rfl
  | step _ hstep ih =>
    cases hstep with
    | next t => simp only [goToNext]; split <;> simpa
    | prev t => simp only [goToPrevious]; split <;> simpa
    | flip t => simpa [flipCard]
    | restart rand t => simpa [restartSession]

/-- The cursor invariant: while a reachable state is not complete, its
cursor is strictly below `totalCards` — provided the input list is
non-empty. -/
lemma reachable_cursor_lt {α : Type} {cards : List α} {s : StudySessionState α}
    (h : SessionReachable cards s) (hne : cards ≠ []) :
    s.isComplete = false → s.currentIndex < s.totalCards := by
  induction h with
  | init rand =>
    intro _
    have : 0 < cards.length := List.length_pos.mpr hne
    simpa [initSession]
  | step hr hstep ih =>
    cases hstep with
    | next t =>
      simp only [goToNext]
      split
      · intro hfalse
        simp at hfalse
      · intro _
        simp only
        omega
    | prev t =>
      simp only [goToPrevious]
      split
      · exact ih
      · intro hc
        have := ih hc
        simp only
        omega
    | flip t =>
      intro hc
      simp only [flipCard] at hc ⊢
      exact ih hc
    | restart rand t =>
      intro _
      have ht := reachable_totalCards hr
      have : 0 < cards.length := List.length_pos.mpr hne
      simp only [restartSession]
      omega

/-! ## Claim C4 -/

/-- C4: `next()` advances the cursor and resets the flip when
`currentIndex + 1 < totalCards`, and otherwise marks the session complete
and resets the flip without moving the cursor; from a fresh session over a
non-empty list the first `n - 1` calls leave `isComplete` false and the
`n`-th call sets it. -/
theorem goToNext_advance_or_complete {α : Type} (s : StudySessionState α)
    (cards : List α) (rand : Nat → Nat) (hne : cards ≠ []) :
    (s.currentIndex + 1 < s.totalCards →
      goToNext s = { s with currentIndex := s.currentIndex + 1, isFlipped := false }) ∧
    (¬ s.currentIndex + 1 < s.totalCards →
      goToNext s = { s with isComplete := true, isFlipped := false }) ∧
    (∀ k, k < cards.length →
      (goToNext^[k] (initSession rand cards)).isComplete = false) ∧
    (goToNext^[cards.length] (initSession rand cards)).isComplete = true := by
  refine ⟨?_, ?_, ?_, ?_⟩
  · intro hlt
    simp only [goToNext]
    rw [if_neg (by omega)]
  · intro hge
    simp only [goToNext]
    rw [if_pos (by omega)]
  · intro k hk
    rw [iterate_goToNext_eq rand cards k hk]
  · have hpos : 0 < cards.length := List.length_pos.mpr hne
    obtain ⟨m, hm⟩ : ∃ m, cards.length = m + 1 := ⟨cards.length - 1, by omega⟩
    rw [hm, Function.iterate_succ_apply',
      iterate_goToNext_eq rand cards m (by omega)]
    simp only [goToNext]
    rw [if_pos (by omega)]

/-- C4 witness: the two-card deck `[10, 20]`. -/
theorem goToNext_advance_or_complete_witness :
    ([10, 20] : List Nat) ≠ [] ∧
    (((initSession (fun _ => 0) ([10, 20] : List Nat)).currentIndex + 1 <
        (initSession (fun _ => 0) ([10, 20] : List Nat)).totalCards →
      goToNext (initSession (fun _ => 0) ([10, 20] : List Nat)) =
        { initSession (fun _ => 0) ([10, 20] : List Nat) with
            currentIndex := (initSession (fun _ => 0) ([10, 20] : List Nat)).currentIndex + 1
            isFlipped := false }) ∧
    (¬ (initSession (fun _ => 0) ([10, 20] : List Nat)).currentIndex + 1 <
        (initSession (fun _ => 0) ([10, 20] : List Nat)).totalCards →
      goToNext (initSession (fun _ => 0) ([10, 20] : List Nat)) =
        { initSession (fun _ => 0) ([10, 20] : List Nat) with
            isComplete := true, isFlipped := false }) ∧
    (∀ k, k < ([10, 20] : List Nat).length →
      (goToNext^[k] (initSession (fun _ => 0) ([10, 20] : List Nat))).isComplete = false) ∧
    (goToNext^[([10, 20] : List Nat).length]
        (initSession (fun _ => 0) ([10, 20] : List Nat))).isComplete = true) :=
  ⟨by decide,
    goToNext_advance_or_complete (initSession (fun _ => 0) [10, 20]) [10, 20]
      (fun _ => 0) (by decide)⟩

/-! ## Claim C5 -/

/-- C5 counterexample: the fresh session over the empty card list is
reachable, is not complete, and violates `currentIndex < totalCards` —
so the invariant as claimed fails for empty input. -/
theorem session_invariant_empty_cex :
    SessionReachable ([] : List Nat) (initSession (fun _ => 0) []) ∧
    (initSession (fun _ => 0) ([] : List Nat)).isComplete = false ∧
    ¬ (initSession (fun _ => 0) ([] : List Nat)).currentIndex <
        (initSession (fun _ => 0) ([] : List Nat)).totalCards :=
  ⟨SessionReachable.init (fun _ => 0), by decide, by decide⟩

/-- C5 (amended): for a NON-EMPTY input list, every state reachable from
`initSession cards` by `flip` / `next` / `previous` / `restart` satisfies
`currentIndex < totalCards` whenever `isComplete` is false; and `isComplete`,
once true, is preserved by `flip`, `next` and `previous` and reset to false
only by `restart`. -/
theorem session_invariant_and_monotone {α : Type} (cards : List α)
    (s : StudySessionState α) (hne : cards ≠ [])
    (hr : SessionReachable cards s) :
    (s.isComplete = false → s.currentIndex < s.totalCards) ∧
    (s.isComplete = true →
      (goToNext s).isComplete = true ∧
      (goToPrevious s).isComplete = true ∧
      (flipCard s).isComplete = true) ∧
    (∀ rand, (restartSession rand s).isComplete = false) := by
  refine ⟨reachable_cursor_lt hr hne, ?_, ?_⟩
  · intro hc
    refine ⟨?_, ?_, ?_⟩
    · simp only [goToNext]
      split
      · rfl
      · exact hc
    · simp only [goToPrevious]
      split <;> exact hc
    · exact hc
  · intro rand
    simp [restartSession]

/-- C5 witness: the singleton deck `[7]` and its fresh session. -/
theorem session_invariant_and_monotone_witness :
    ([7] : List Nat) ≠ [] ∧
    SessionReachable ([7] : List Nat) (initSession (fun _ => 0) [7]) ∧
    (((initSession (fun _ => 0) ([7] : List Nat)).isComplete = false →
      (initSession (fun _ => 0) ([7] : List Nat)).currentIndex <
        (initSession (fun _ => 0) ([7] : List Nat)).totalCards) ∧
    ((initSession (fun _ => 0) ([7] : List Nat)).isComplete = true →
      (goToNext (initSession (fun _ => 0) ([7] : List Nat))).isComplete = true ∧
      (goToPrevious (initSession (fun _ => 0) ([7] : List Nat))).isComplete = true ∧
      (flipCard (initSession (fun _ => 0) ([7] : List Nat))).isComplete = true) ∧
    (∀ rand, (restartSession rand (initSession (fun _ => 0) ([7] : List Nat))).isComplete
      = false)) :=
  ⟨by decide, SessionReachable.init (fun _ => 0),
    session_invariant_and_monotone [7] (initSession (fun _ => 0) [7]) (by decide)
      (SessionReachable.init (fun _ => 0))⟩

/-! ## Claim C9 -/

/-- C9: after completion (and before `restart`), `flip` still toggles
`isFlipped` leaving every other field unchanged, `previous` with a positive
cursor still decrements it and resets the flip leaving every other field
unchanged (in particular `isComplete`, `totalCards` and the shuffled order),
and of the four operations only `restart` returns the session to the active
state. -/
theorem complete_state_frame {α : Type} (s : StudySessionState α)
    (hc : s.isComplete = true) :
    flipCard s = { s with isFlipped := !s.isFlipped } ∧
    (0 < s.currentIndex →
      goToPrevious s =
        { s with currentIndex := s.currentIndex - 1, isFlipped := false }) ∧
    (goToNext s).isComplete = true ∧
    (goToPrevious s).isComplete = true ∧
    (flipCard s).isComplete = true ∧
    (∀ rand, (restartSession rand s).isComplete = false) := by
  refine ⟨rfl, ?_, ?_, ?_, ?_, ?_⟩
  · intro hi
    simp only [goToPrevious]
    rw [if_neg (by omega)]
  · simp only [goToNext]
    split
    · rfl
    · exact hc
  · simp only [goToPrevious]
    split <;> exact hc
  · exact hc
  · intro rand
    simp [restartSession]

/-- C9 witness: a completed two-card session sitting on the second card. -/
theorem complete_state_frame_witness :
    (⟨[1, 2], 1, false, true, 2⟩ : StudySessionState Nat).isComplete = true ∧
    (flipCard (⟨[1, 2], 1, false, true, 2⟩ : StudySessionState Nat) =
      { (⟨[1, 2], 1, false, true, 2⟩ : StudySessionState Nat) with isFlipped := !false } ∧
    (0 < (⟨[1, 2], 1, false, true, 2⟩ : StudySessionState Nat).currentIndex →
      goToPrevious (⟨[1, 2], 1, false, true, 2⟩ : StudySessionState Nat) =
        { (⟨[1, 2], 1, false, true, 2⟩ : StudySessionState Nat) with
            currentIndex := 1 - 1, isFlipped := false }) ∧
    (goToNext (⟨[1, 2], 1, false, true, 2⟩ : StudySessionState Nat)).isComplete = true ∧
    (goToPrevious (⟨[1, 2], 1, false, true, 2⟩ : StudySessionState Nat)).isComplete = true ∧
    (flipCard (⟨[1, 2], 1, false, true, 2⟩ : StudySessionState Nat)).isComplete = true ∧
    (∀ rand,
      (restartSession rand (⟨[1, 2], 1, false, true, 2⟩ : StudySessionState Nat)).isComplete
        = false)) :=
  ⟨by decide,
    complete_state_frame (⟨[1, 2], 1, false, true, 2⟩ : StudySessionState Nat)
      (by decide)⟩

/-! ## Helper lemmas: bulk commit -/

/-- Lemma: `find?` commutes with a map that does not change the predicate's
verdict. -/
lemma find?_map_pres {α : Type} (p : α → Bool) (f : α → α)
    (hp : ∀ x, p (f x) = p x) :
    ∀ l : List α, (l.map f).find? p = (l.find? p).map f
  | [] => rfl
  | x :: xs => by
    by_cases h : p x
    · rw [List.map_cons, List.find?_cons_of_pos _ (by rw [hp]; exact h),
        List.find?_cons_of_pos _ h, Option.map_some']
    · rw [List.map_cons, List.find?_cons_of_neg _ (by rw [hp]; simpa using h),
        List.find?_cons_of_neg _ (by simpa using h), find?_map_pres p f hp xs]

/-- The latch update of step 6 only touches `acceptedCardsCount`, so the
generation lookup finds the same row with the count set. -/
lemma findGeneration_after_latch (db : Db) (u d gid : String)
    (g : GenerationRow) (c : Int)
    (h : findGeneration db u d gid = some g) :
    findGeneration
      { db with
        generations := db.generations.map (fun x =>
          if x.id = gid then { x with acceptedCardsCount := some c } else x) }
      u d gid = some { g with acceptedCardsCount := some c } := by
  have hpred := List.find?_some h
  simp only [Bool.and_eq_true, decide_eq_true_eq] at hpred
  unfold findGeneration at h ⊢
  rw [find?_map_pres _ _ (fun x => by by_cases hx : x.id = gid <;> simp [hx]), h,
    Option.map_some']
  rw [if_pos hpred.1.1]

/-- Casting the available-slot minimum between `Int` and `Nat` under the
capacity bound. -/
lemma cardsToAdd_cast (n c : Nat) (h : c ≤ 100) :
    min (n : Int) (100 - (c : Int)) = ((min n (100 - c) : Nat) : Int) := by
  omega

/-- Lemma: `slice(0, e)` for a non-negative `e` is `take`. -/
lemma jsSliceTo_nonneg {α : Type} (l : List α) (e : Int) (h : 0 ≤ e) :
    jsSliceTo l e = l.take e.toNat := by
  unfold jsSliceTo
  rw [if_neg (by omega)]

/-- Full characterization of a successful commit (no write failure, deck
found, generation unprocessed, deck within capacity): the state after the
call and the returned totals, with `a` the number of accepted cards. -/
lemma bulkCreate_success_shape (db : Db) (u d : String)
    (cmd : BulkCreateFlashcardsCommand) (deck : DeckRow) (gen : GenerationRow)
    (a : Nat)
    (hdeck : findDeck db u d = some deck)
    (hgen : findGeneration db u d cmd.generationId = some gen)
    (hnull : gen.acceptedCardsCount = none)
    (hcap : countFlashcards db d ≤ 100)
    (ha : a = min cmd.flashcards.length (100 - countFlashcards db d)) :
    bulkCreateFlashcards db u d cmd false false =
      ({ db with
          flashcards := db.flashcards ++
            (cmd.flashcards.take a).map (mkGeneratedRow d cmd.generationId)
          generations := db.generations.map (fun g =>
            if g.id = cmd.generationId then
              { g with acceptedCardsCount := some (a : Int) }
            else g) },
        .ok { cardsAdded := (a : Int)
              cardsSkipped := (cmd.flashcards.length : Int) - (a : Int)
              deckTotalFlashcards := (countFlashcards db d : Int) + (a : Int) }) := by
  have hmin := cardsToAdd_cast cmd.flashcards.length (countFlashcards db d) hcap
  simp only [bulkCreateFlashcards, hdeck, hgen, hnull, hmin, Bool.false_eq_true,
    if_false, ← ha]
  rw [jsSliceTo_nonneg cmd.flashcards (a : Int) (by positivity), Int.toNat_natCast]
  by_cases hpos : ((cmd.flashcards.take a).map (mkGeneratedRow d cmd.generationId)).length > 0
  · rw [if_pos hpos]
  · rw [if_neg hpos]
    simp only [gt_iff_lt, Nat.pos_iff_ne_zero, ne_eq, not_not,
      List.length_eq_zero] at hpos
    rw [hpos, List.append_nil]

/-- A commit against a generation whose `acceptedCardsCount` is already
non-null stops at the step-2 guard: `GenerationAlreadyProcessedError`, state
untouched. -/
lemma bulkCreate_rejects_latched (db : Db) (u d : String) (deck : DeckRow)
    (cmd : BulkCreateFlashcardsCommand) (g : GenerationRow) (k : Int)
    (hdeck : findDeck db u d = some deck)
    (hgen : findGeneration db u d cmd.generationId = some g)
    (hk : g.acceptedCardsCount = some k)
    (insertFails updateFails : Bool) :
    bulkCreateFlashcards db u d cmd insertFails updateFails =
      (db, .error .generationAlreadyProcessed) := by
  simp only [bulkCreateFlashcards, hdeck, hgen, hk]

/-! ## Claim C2 -/

/-- C2: a commit on a deck holding `c ≤ 100` cards with `n` curated cards
succeeds with `cardsAdded = min n (100 - c)`,
`cardsSkipped = n - cardsAdded`, `deckTotalFlashcards = c + cardsAdded`, and
inserts exactly the first `cardsAdded` curated cards in the order supplied
(an oversized list is truncated, never a request failure). -/
theorem commit_truncation_totals (db : Db) (u d : String)
    (cmd : BulkCreateFlashcardsCommand) (deck : DeckRow) (gen : GenerationRow)
    (hdeck : findDeck db u d = some deck)
    (hgen : findGeneration db u d cmd.generationId = some gen)
    (hnull : gen.acceptedCardsCount = none)
    (hcap : countFlashcards db d ≤ 100) :
    (bulkCreateFlashcards db u d cmd false false).2 =
      .ok { cardsAdded :=
              ((min cmd.flashcards.length (100 - countFlashcards db d) : Nat) : Int)
            cardsSkipped := (cmd.flashcards.length : Int) -
              ((min cmd.flashcards.length (100 - countFlashcards db d) : Nat) : Int)
            deckTotalFlashcards := (countFlashcards db d : Int) +
              ((min cmd.flashcards.length (100 - countFlashcards db d) : Nat) : Int) } ∧
    (bulkCreateFlashcards db u d cmd false false).1.flashcards =
      db.flashcards ++
        (cmd.flashcards.take
            (min cmd.flashcards.length (100 - countFlashcards db d))).map
          (mkGeneratedRow d cmd.generationId) := by
  rw [bulkCreate_success_shape db u d cmd deck gen _ hdeck hgen hnull hcap rfl]
  exact ⟨rfl, rfl⟩

/-! ## Claim C1 -/

/-- C1: when the generation row exists for the given deck and user, a commit
against a null `acceptedCardsCount` succeeds and latches the count, while a
non-null count fails with `GenerationAlreadyProcessedError`; consequently a
second commit with the same `generationId` after a successful first commit
is always rejected. -/
theorem commit_latch_guard (db : Db) (u d : String)
    (cmd : BulkCreateFlashcardsCommand) (deck : DeckRow) (gen : GenerationRow)
    (hdeck : findDeck db u d = some deck)
    (hgen : findGeneration db u d cmd.generationId = some gen) :
    (∀ k : Int, gen.acceptedCardsCount = some k →
      ∀ insertFails updateFails : Bool,
        bulkCreateFlashcards db u d cmd insertFails updateFails =
          (db, .error .generationAlreadyProcessed)) ∧
    (gen.acceptedCardsCount = none → countFlashcards db d ≤ 100 →
      ∃ r : BulkCreateFlashcardsResponseDto,
        (bulkCreateFlashcards db u d cmd false false).2 = .ok r ∧
        findGeneration (bulkCreateFlashcards db u d cmd false false).1 u d
            cmd.generationId =
          some { gen with acceptedCardsCount := some r.cardsAdded } ∧
        (∀ cmd2 : BulkCreateFlashcardsCommand,
          cmd2.generationId = cmd.generationId →
          ∀ insertFails updateFails : Bool,
            bulkCreateFlashcards (bulkCreateFlashcards db u d cmd false false).1
                u d cmd2 insertFails updateFails =
              ((bulkCreateFlashcards db u d cmd false false).1,
                .error .generationAlreadyProcessed))) := by
  constructor
  · intro k hk insertFails updateFails
    exact bulkCreate_rejects_latched db u d deck cmd gen k hdeck hgen hk
      insertFails updateFails
  · intro hnull hcap
    rw [bulkCreate_success_shape db u d cmd deck gen _ hdeck hgen hnull hcap rfl]
    refine ⟨_, rfl, ?_, ?_⟩
    · exact findGeneration_after_latch _ u d cmd.generationId gen _ hgen
    · intro cmd2 hgid insertFails updateFails
      refine bulkCreate_rejects_latched _ u d deck cmd2
        { gen with
          acceptedCardsCount :=
            (some ((min cmd.flashcards.length (100 - countFlashcards db d) : Nat) : Int)) }
        ((min cmd.flashcards.length (100 - countFlashcards db d) : Nat) : Int)
        ?_ ?_ rfl insertFails updateFails
      · exact hdeck
      · rw [hgid]
        exact findGeneration_after_latch
          { db with
            flashcards := db.flashcards ++
              (cmd.flashcards.take
                  (min cmd.flashcards.length (100 - countFlashcards db d))).map
                (mkGeneratedRow d cmd.generationId) }
          u d cmd.generationId gen
          ((min cmd.flashcards.length (100 - countFlashcards db d) : Nat) : Int) hgen

/-! ## Claim C3 -/

/-- C3: when the insert of the curated flashcards fails, the commit raises
the insert error with the database untouched — in particular the
generation's `acceptedCardsCount` latch is still null. -/
theorem commit_insert_failure_latch_null (db : Db) (u d : String)
    (cmd : BulkCreateFlashcardsCommand) (deck : DeckRow) (gen : GenerationRow)
    (updateFails : Bool)
    (hdeck : findDeck db u d = some deck)
    (hgen : findGeneration db u d cmd.generationId = some gen)
    (hnull : gen.acceptedCardsCount = none)
    (hcap : countFlashcards db d ≤ 100)
    (hpos : 0 < min cmd.flashcards.length (100 - countFlashcards db d)) :
    bulkCreateFlashcards db u d cmd true updateFails =
      (db, .error .insertFailed) ∧
    findGeneration (bulkCreateFlashcards db u d cmd true updateFails).1 u d
        cmd.generationId = some gen ∧
    gen.acceptedCardsCount = none := by
  have hmin := cardsToAdd_cast cmd.flashcards.length (countFlashcards db d) hcap
  have key : bulkCreateFlashcards db u d cmd true updateFails =
      (db, .error .insertFailed) := by
    simp only [bulkCreateFlashcards, hdeck, hgen, hnull, hmin]
    rw [jsSliceTo_nonneg cmd.flashcards _ (by positivity), Int.toNat_natCast,
      if_pos (by simp only [List.length_map, List.length_take]; omega)]
    simp
  refine ⟨key, ?_, hnull⟩
  rw [key]
  exact hgen

/-! ## Claim C8 -/

/-- C8: on a deck already holding exactly 100 flashcards, a commit against
an unprocessed generation succeeds with `cardsAdded = 0`, inserts no
flashcard row, yet still latches `acceptedCardsCount = 0`, so any later
commit with the same `generationId` fails with
`GenerationAlreadyProcessedError`. -/
theorem commit_full_deck_consumes_generation (db : Db) (u d : String)
    (cmd : BulkCreateFlashcardsCommand) (deck : DeckRow) (gen : GenerationRow)
    (hdeck : findDeck db u d = some deck)
    (hgen : findGeneration db u d cmd.generationId = some gen)
    (hnull : gen.acceptedCardsCount = none)
    (hfull : countFlashcards db d = 100) :
    (bulkCreateFlashcards db u d cmd false false).2 =
      .ok { cardsAdded := 0
            cardsSkipped := (cmd.flashcards.length : Int)
            deckTotalFlashcards := 100 } ∧
    (bulkCreateFlashcards db u d cmd false false).1.flashcards =
      db.flashcards ∧
    findGeneration (bulkCreateFlashcards db u d cmd false false).1 u d
        cmd.generationId = some { gen with acceptedCardsCount := some 0 } ∧
    (∀ cmd2 : BulkCreateFlashcardsCommand,
      cmd2.generationId = cmd.generationId →
      ∀ insertFails updateFails : Bool,
        bulkCreateFlashcards (bulkCreateFlashcards db u d cmd false false).1
            u d cmd2 insertFails updateFails =
          ((bulkCreateFlashcards db u d cmd false false).1,
            .error .generationAlreadyProcessed)) := by
  have ha : (0 : Nat) = min cmd.flashcards.length (100 - countFlashcards db d) := by
    omega
  rw [bulkCreate_success_shape db u d cmd deck gen 0 hdeck hgen hnull (by omega) ha]
  refine ⟨by rw [hfull]; norm_num, by simp, ?_, ?_⟩
  · have h := findGeneration_after_latch
      { db with
        flashcards := db.flashcards ++
          (cmd.flashcards.take 0).map (mkGeneratedRow d cmd.generationId) }
      u d cmd.generationId gen ((0 : Nat) : Int) hgen
    simpa using h
  · intro cmd2 hgid insertFails updateFails
    refine bulkCreate_rejects_latched _ u d deck cmd2
      { gen with acceptedCardsCount := (some ((0 : Nat) : Int)) }
      ((0 : Nat) : Int) ?_ ?_ rfl insertFails updateFails
    · exact hdeck
    · rw [hgid]
      exact findGeneration_after_latch
        { db with
          flashcards := db.flashcards ++
            (cmd.flashcards.take 0).map (mkGeneratedRow d cmd.generationId) }
        u d cmd.generationId gen ((0 : Nat) : Int) hgen

/-! ## Concrete data for the commit witnesses -/

/-- A deck row owned by user `u1`. -/
def exDeck : DeckRow := { id := "d1", userId := "u1" }

/-- An unprocessed generation for that deck. -/
def exGen : GenerationRow :=
  { id := "g1", deckId := "d1", userId := "u1", durationMs := 5,
    generatedCardsCount := 5, acceptedCardsCount := none }

/-- A database whose deck `d1` holds `c` manual flashcards. -/
def exDb (c : Nat) : Db :=
  { decks := [exDeck]
    flashcards := List.replicate c
      { deckId := "d1", front := "f", back := "b", creationType := "manual",
        generationId := none }
    generations := [exGen]
    generationErrors := [] }

/-- A commit command carrying five curated cards for generation `g1`. -/
def exCmd5 : BulkCreateFlashcardsCommand :=
  { generationId := "g1"
    flashcards := [⟨"q1", "a1"⟩, ⟨"q2", "a2"⟩, ⟨"q3", "a3"⟩, ⟨"q4", "a4"⟩,
      ⟨"q5", "a5"⟩] }

/-- C1 witness: the empty deck `exDb 0` with generation `g1`. -/
theorem commit_latch_guard_witness :
    findDeck (exDb 0) "u1" "d1" = some exDeck ∧
    findGeneration (exDb 0) "u1" "d1" exCmd5.generationId = some exGen ∧
    ((∀ k : Int, exGen.acceptedCardsCount = some k →
      ∀ insertFails updateFails : Bool,
        bulkCreateFlashcards (exDb 0) "u1" "d1" exCmd5 insertFails updateFails =
          (exDb 0, .error .generationAlreadyProcessed)) ∧
    (exGen.acceptedCardsCount = none → countFlashcards (exDb 0) "d1" ≤ 100 →
      ∃ r : BulkCreateFlashcardsResponseDto,
        (bulkCreateFlashcards (exDb 0) "u1" "d1" exCmd5 false false).2 = .ok r ∧
        findGeneration
            (bulkCreateFlashcards (exDb 0) "u1" "d1" exCmd5 false false).1
            "u1" "d1" exCmd5.generationId =
          some { exGen with acceptedCardsCount := some r.cardsAdded } ∧
        (∀ cmd2 : BulkCreateFlashcardsCommand,
          cmd2.generationId = exCmd5.generationId →
          ∀ insertFails updateFails : Bool,
            bulkCreateFlashcards
                (bulkCreateFlashcards (exDb 0) "u1" "d1" exCmd5 false false).1
                "u1" "d1" cmd2 insertFails updateFails =
              ((bulkCreateFlashcards (exDb 0) "u1" "d1" exCmd5 false false).1,
                .error .generationAlreadyProcessed)))) :=
  ⟨rfl, rfl,
    commit_latch_guard (exDb 0) "u1" "d1" exCmd5 exDeck exGen rfl rfl⟩

/-- C2 witness: the spec scenario — 98 cards in the deck, five curated
cards; additionally checks the concrete totals 2 / 3 / 100 by evaluation. -/
theorem commit_truncation_totals_witness :
    findDeck (exDb 98) "u1" "d1" = some exDeck ∧
    findGeneration (exDb 98) "u1" "d1" exCmd5.generationId = some exGen ∧
    exGen.acceptedCardsCount = none ∧
    countFlashcards (exDb 98) "d1" ≤ 100 ∧
    ((bulkCreateFlashcards (exDb 98) "u1" "d1" exCmd5 false false).2 =
      .ok { cardsAdded :=
              ((min exCmd5.flashcards.length
                  (100 - countFlashcards (exDb 98) "d1") : Nat) : Int)
            cardsSkipped := (exCmd5.flashcards.length : Int) -
              ((min exCmd5.flashcards.length
                  (100 - countFlashcards (exDb 98) "d1") : Nat) : Int)
            deckTotalFlashcards := (countFlashcards (exDb 98) "d1" : Int) +
              ((min exCmd5.flashcards.length
                  (100 - countFlashcards (exDb 98) "d1") : Nat) : Int) } ∧
    (bulkCreateFlashcards (exDb 98) "u1" "d1" exCmd5 false false).1.flashcards =
      (exDb 98).flashcards ++
        (exCmd5.flashcards.take
            (min exCmd5.flashcards.length
              (100 - countFlashcards (exDb 98) "d1"))).map
          (mkGeneratedRow "d1" exCmd5.generationId)) ∧
    (bulkCreateFlashcards (exDb 98) "u1" "d1" exCmd5 false false).2 =
      .ok { cardsAdded := 2, cardsSkipped := 3, deckTotalFlashcards := 100 } :=
  ⟨rfl, rfl, rfl, by decide,
    commit_truncation_totals (exDb 98) "u1" "d1" exCmd5 exDeck exGen rfl rfl rfl
      (by decide),
    rfl⟩

/-- C3 witness: the 98-card deck with a failing flashcard insert. -/
theorem commit_insert_failure_latch_null_witness :
    findDeck (exDb 98) "u1" "d1" = some exDeck ∧
    findGeneration (exDb 98) "u1" "d1" exCmd5.generationId = some exGen ∧
    exGen.acceptedCardsCount = none ∧
    countFlashcards (exDb 98) "d1" ≤ 100 ∧
    0 < min exCmd5.flashcards.length (100 - countFlashcards (exDb 98) "d1") ∧
    (bulkCreateFlashcards (exDb 98) "u1" "d1" exCmd5 true false =
      ((exDb 98), .error .insertFailed) ∧
    findGeneration
        (bulkCreateFlashcards (exDb 98) "u1" "d1" exCmd5 true false).1
        "u1" "d1" exCmd5.generationId = some exGen ∧
    exGen.acceptedCardsCount = none) :=
  ⟨rfl, rfl, rfl, by decide, by decide,
    commit_insert_failure_latch_null (exDb 98) "u1" "d1" exCmd5 exDeck exGen
      false rfl rfl rfl (by decide) (by decide)⟩

/-- C8 witness: the full deck `exDb 100`. -/
theorem commit_full_deck_consumes_generation_witness :
    findDeck (exDb 100) "u1" "d1" = some exDeck ∧
    findGeneration (exDb 100) "u1" "d1" exCmd5.generationId = some exGen ∧
    exGen.acceptedCardsCount = none ∧
    countFlashcards (exDb 100) "d1" = 100 ∧
    ((bulkCreateFlashcards (exDb 100) "u1" "d1" exCmd5 false false).2 =
      .ok { cardsAdded := 0
            cardsSkipped := (exCmd5.flashcards.length : Int)
            deckTotalFlashcards := 100 } ∧
    (bulkCreateFlashcards (exDb 100) "u1" "d1" exCmd5 false false).1.flashcards =
      (exDb 100).flashcards ∧
    findGeneration
        (bulkCreateFlashcards (exDb 100) "u1" "d1" exCmd5 false false).1
        "u1" "d1" exCmd5.generationId =
      some { exGen with acceptedCardsCount := some 0 } ∧
    (∀ cmd2 : BulkCreateFlashcardsCommand,
      cmd2.generationId = exCmd5.generationId →
      ∀ insertFails updateFails : Bool,
        bulkCreateFlashcards
            (bulkCreateFlashcards (exDb 100) "u1" "d1" exCmd5 false false).1
            "u1" "d1" cmd2 insertFails updateFails =
          ((bulkCreateFlashcards (exDb 100) "u1" "d1" exCmd5 false false).1,
            .error .generationAlreadyProcessed))) :=
  ⟨rfl, rfl, rfl, by decide,
    commit_full_deck_consumes_generation (exDb 100) "u1" "d1" exCmd5 exDeck exGen
      rfl rfl rfl (by decide)⟩

/-! ## Claim C6 -/

/-- C6 counterexample: the response schema accepts a two-pair payload and a
fifteen-pair payload, so it does not accept only 3-10 pairs. -/
theorem schema_bounds_cex :
    flashcardsResponseCheck [⟨"a", "b"⟩, ⟨"c", "d"⟩] = true ∧
    flashcardsResponseCheck (List.replicate 15 ⟨"a", "b"⟩) = true := by
  constructor <;> decide

/-- C6 (amended): the payload returned by the external completion service is
validated against a fixed schema accepting 1-20 `{front, back}` pairs (the
prompt requests 3-10, but the enforced bound is `.min(1).max(20)`), and for
every payload that is empty or fails that schema, `suggest` fails with a
schema-validation `GenerationError` rather than returning an empty
suggestion list. -/
theorem suggest_schema_validation (db : Db) (deckId text userId : String)
    (raw : List SuggestedFlashcard) (durationMs : Int) (newGenId : String)
    (insertFails : Bool) (deck : DeckRow)
    (hdeck : db.decks.find? (fun x => x.id = deckId) = some deck)
    (howner : deck.userId = userId)
    (hbad : flashcardsResponseCheck raw = false) :
    (∀ p : List SuggestedFlashcard,
      flashcardsResponseCheck p = true ↔ 1 ≤ p.length ∧ p.length ≤ 20) ∧
    generateFlashcards db deckId text userId (.ok raw) durationMs newGenId
        insertFails = (db, .error (.generation .validation)) := by
  constructor
  · intro p
    simp [flashcardsResponseCheck]
  · simp [generateFlashcards, hdeck, howner, parseWithSchema, hbad,
      Except.bind, classifyOpenRouterFailure]

/-- C6 witness: the empty payload on an owned deck. -/
theorem suggest_schema_validation_witness :
    (exDb 0).decks.find? (fun x => x.id = "d1") = some exDeck ∧
    exDeck.userId = "u1" ∧
    flashcardsResponseCheck [] = false ∧
    ((∀ p : List SuggestedFlashcard,
      flashcardsResponseCheck p = true ↔ 1 ≤ p.length ∧ p.length ≤ 20) ∧
    generateFlashcards (exDb 0) "d1" "some source text" "u1" (.ok []) 5 "g1"
        false = ((exDb 0), .error (.generation .validation))) :=
  ⟨rfl, rfl, rfl,
    suggest_schema_validation (exDb 0) "d1" "some source text" "u1" [] 5 "g1"
      false exDeck rfl rfl rfl⟩

/-! ## Claim C7 -/

/-- C7: a transport failure of the external completion service makes
`suggest` fail with a network-classified `GenerationError`, and no
Generation row is inserted — the store is untouched. -/
theorem suggest_network_failure_no_row (db : Db) (deckId text userId : String)
    (durationMs : Int) (newGenId : String) (insertFails : Bool) (deck : DeckRow)
    (hdeck : db.decks.find? (fun x => x.id = deckId) = some deck)
    (howner : deck.userId = userId) :
    generateFlashcards db deckId text userId (.error .network) durationMs
        newGenId insertFails = (db, .error (.generation .network)) ∧
    (generateFlashcards db deckId text userId (.error .network) durationMs
        newGenId insertFails).1.generations = db.generations := by
  have key : generateFlashcards db deckId text userId (.error .network)
      durationMs newGenId insertFails = (db, .error (.generation .network)) := by
    simp [generateFlashcards, hdeck, howner, Except.bind,
      classifyOpenRouterFailure]
  exact ⟨key, by rw [key]⟩

/-- C7 witness: a network failure against the owned deck `d1`. -/
theorem suggest_network_failure_no_row_witness :
    (exDb 0).decks.find? (fun x => x.id = "d1") = some exDeck ∧
    exDeck.userId = "u1" ∧
    (generateFlashcards (exDb 0) "d1" "some source text" "u1" (.error .network)
        5 "g1" false = ((exDb 0), .error (.generation .network)) ∧
    (generateFlashcards (exDb 0) "d1" "some source text" "u1" (.error .network)
        5 "g1" false).1.generations = (exDb 0).generations) :=
  ⟨rfl, rfl,
    suggest_network_failure_no_row (exDb 0) "d1" "some source text" "u1" 5 "g1"
      false exDeck rfl rfl⟩

/-! ## Claim C10 -/

/-- C10: the bulk endpoint validates the request body before touching any
state — the schema demands a UUID `generationId` and 1-100 flashcards whose
trimmed fronts are 1-200 characters and trimmed backs 1-500 characters —
and every violation yields a 400 response with the database unmodified; in
particular an empty curated list is rejected rather than latching the
generation. -/
theorem bulk_endpoint_validation (db : Db) (userId deckIdParam : String)
    (body : BulkCreateFlashcardsCommand) (insertFails updateFails : Bool)
    (hbad : bulkBodyCheck body = false) :
    (∀ b : BulkCreateFlashcardsCommand,
      bulkBodyCheck b = true ↔
        isUuid b.generationId = true ∧
        1 ≤ b.flashcards.length ∧ b.flashcards.length ≤ 100 ∧
        ∀ fc ∈ b.flashcards,
          1 ≤ fc.front.trim.length ∧ fc.front.trim.length ≤ 200 ∧
          1 ≤ fc.back.trim.length ∧ fc.back.trim.length ≤ 500) ∧
    postBulk db (some userId) deckIdParam (some body) insertFails updateFails =
      (db, .badRequest) := by
  constructor
  · intro b
    simp only [bulkBodyCheck, validBulkEntry, Bool.and_eq_true,
      decide_eq_true_eq, List.all_eq_true, and_assoc]
  · simp only [postBulk]
    by_cases hu : isUuid deckIdParam
    · rw [hu]
      simp only [Bool.not_true, Bool.false_eq_true, if_false, parseBulkBody,
        hbad, Bool.false_eq_true, if_false]
    · rw [Bool.eq_false_iff.mpr hu]
      simp

/-- A syntactically valid UUID used by the C10 witness. -/
def exUuid : String := "123e4567-e89b-12d3-a456-426614174000"

/-- C10 witness: a request body with a valid UUID but an empty curated list
is rejected with 400 and the database is untouched. -/
theorem bulk_endpoint_validation_witness :
    bulkBodyCheck { generationId := exUuid, flashcards := [] } = false ∧
    ((∀ b : BulkCreateFlashcardsCommand,
      bulkBodyCheck b = true ↔
        isUuid b.generationId = true ∧
        1 ≤ b.flashcards.length ∧ b.flashcards.length ≤ 100 ∧
        ∀ fc ∈ b.flashcards,
          1 ≤ fc.front.trim.length ∧ fc.front.trim.length ≤ 200 ∧
          1 ≤ fc.back.trim.length ∧ fc.back.trim.length ≤ 500) ∧
    postBulk (exDb 0) (some "u1") exUuid
        (some { generationId := exUuid, flashcards := [] }) false false =
      ((exDb 0), .badRequest)) :=
  ⟨by decide,
    bulk_endpoint_validation (exDb 0) "u1" exUuid
      { generationId := exUuid, flashcards := [] } false false (by decide)⟩
